import Mathlib

/-!
Verification of the theme-toggle script `src/static/app.js`.

The script is an IIFE:
```js
(function(){
  const key = "theme";
  const prefersLight = window.matchMedia && window.matchMedia("(prefers-color-scheme: light)").matches;
  const initial = localStorage.getItem(key) || (prefersLight ? "light" : "dark");
  if(initial === "light") document.body.classList.add("light");

  const btn = document.getElementById("theme-toggle");
  if(!btn) return;
  btn.addEventListener("click", ()=>{
    const isLight = document.body.classList.toggle("light");
    localStorage.setItem(key, isLight ? "light" : "dark");
  });
})();
```

Embedding choices:
* `localStorage` is an association list `Storage`; `getItem` returns the first
  binding (`Option String`, `none` for a missing key, matching JS `null`),
  `setItem` replaces the binding for the key.
* JavaScript `a || b` on a nullable string is `jsOrString`: `null` and the
  empty string are falsy, every other string is truthy.
* `document.body.classList` is a `List String`; `classList.add` appends the
  token when absent, `classList.toggle` removes a present token (returning
  `false`) or appends an absent one (returning `true`), exactly the DOM
  semantics used by lines 5 and 10.
* `window.matchMedia` may be absent (`matchMediaAvail`); line 3 then yields a
  falsy value, so `prefersLight` is the conjunction of availability and the
  media-query result.
* `document.getElementById("theme-toggle")` may yield `null`
  (`btnPresent = false`); line 8 returns before `addEventListener`.  Calling
  `addEventListener` on `null` would throw, which the embedding models with
  `Except`: `initialize` returns `.error` only if that call were reached with
  no button.
* The storage reads/writes and root-class mutations performed by each code
  path are additionally logged by `initTrace` / `handlerTrace` for the
  effect-framing claims.
-/

namespace ThemeApp

/-- Persisted storage (`localStorage`) as an association list of
key/value pairs. -/
abbrev Storage := List (String × String)

/-- `localStorage.getItem(k)`: first binding of `k`, `none` when the key is
absent (JS `null`). -/
def getItem : Storage → String → Option String
  | [], _ => none
  | p :: rest, k => if p.1 = k then some p.2 else getItem rest k

/-- `localStorage.setItem(k, v)`: afterwards `k` is bound to `v` and every
other key keeps its binding. -/
def setItem (s : Storage) (k v : String) : Storage :=
  (k, v) :: s.filter (fun p => p.1 != k)

/-- JavaScript `a || b` where `a` is a string or `null` (line 4 of the
script): `null` and `""` are falsy, any other string is returned as is. -/
def jsOrString (a : Option String) (b : String) : String :=
  match a with
  | none => b
  | some v => if v = "" then b else v

/-- `classList.add c` (line 5): append the token when absent, no-op when
present. -/
def classAdd (cs : List String) (c : String) : List String :=
  if c ∈ cs then cs else cs ++ [c]

/-- `classList.toggle c` (line 10): remove a present token (result `false`)
or append an absent one (result `true`).  Returns
(token present afterwards, new class list). -/
def classToggle (cs : List String) (c : String) : Bool × List String :=
  if c ∈ cs then (false, cs.filter (fun x => x ≠ c)) else (true, cs ++ [c])

/-- The ambient environment the IIFE reads: persisted storage, the
`window.matchMedia` capability and its media-query answer, and whether the
`"theme-toggle"` element exists. -/
structure Env where
  storage : Storage
  matchMediaAvail : Bool
  prefersLightMatches : Bool
  btnPresent : Bool
deriving DecidableEq, Repr

/-- Line 3: `window.matchMedia && window.matchMedia("(prefers-color-scheme: light)").matches`.
Falsy when the capability is unavailable. -/
def prefersLight (e : Env) : Bool :=
  e.matchMediaAvail && e.prefersLightMatches

/-- Line 4: `localStorage.getItem(key) || (prefersLight ? "light" : "dark")`. -/
def initial (e : Env) : String :=
  jsOrString (getItem e.storage "theme") (if prefersLight e then "light" else "dark")

/-- Program state after initialization: the body class list, the storage, and
whether the click handler got registered. -/
structure PState where
  body : List String
  storage : Storage
  handlerBound : Bool
deriving DecidableEq, Repr

/-- Line 5: add the `"light"` marker class exactly when the resolved initial
preference is the string `"light"`. -/
def applyInit (e : Env) (body0 : List String) : List String :=
  if initial e = "light" then classAdd body0 "light" else body0

/-- `btn.addEventListener(...)`: throws a `TypeError` when called on `null`
(an absent button). -/
def addEventListener (btnPresent : Bool) : Except String Unit :=
  if btnPresent then Except.ok () else Except.error "TypeError: btn is null"

/-- Lines 2-12: the body of the IIFE.  Resolve and apply the initial theme;
if the toggle button is absent return early (line 8), otherwise register the
click handler. -/
def initMain (e : Env) (body0 : List String) : Except String PState :=
  let body1 := applyInit e body0
  if !e.btnPresent then
    Except.ok ⟨body1, e.storage, false⟩
  else
    match addEventListener e.btnPresent with
    | Except.ok _ => Except.ok ⟨body1, e.storage, true⟩
    | Except.error msg => Except.error msg

/-- Lines 10-11: one activation of the click handler. -/
def clickHandler (st : PState) : PState :=
  let t := classToggle st.body "light"
  ⟨t.2, setItem st.storage "theme" (if t.1 then "light" else "dark"), st.handlerBound⟩

/-- A click event on the page: runs the handler only if it was registered. -/
def clickEvent (st : PState) : PState :=
  if st.handlerBound then clickHandler st else st

/-- A whole run: the IIFE followed by `n` click events. -/
def run (e : Env) (body0 : List String) (n : Nat) : Except String PState :=
  match initMain e body0 with
  | Except.ok st => Except.ok (clickEvent^[n] st)
  | Except.error msg => Except.error msg

/-! ### Effect traces (for the framing claims) -/

/-- One observable side effect: a storage read, a storage write, or a
mutation of the root element's class list. -/
inductive Eff where
  | readStorage (k : String)
  | writeStorage (k : String) (v : String)
  | classMutation (c : String)
deriving DecidableEq, Repr

/-- Is the effect a storage read? -/
def Eff.isRead : Eff → Bool
  | Eff.readStorage _ => true
  | _ => false

/-- Is the effect a storage write? -/
def Eff.isWrite : Eff → Bool
  | Eff.writeStorage _ _ => true
  | _ => false

/-- Is the effect a class-list mutation? -/
def Eff.isClassMutation : Eff → Bool
  | Eff.classMutation _ => true
  | _ => false

/-- Storage effects and class mutations performed by lines 2-5 of the
script: one `getItem` on `"theme"`, then `classList.add("light")` exactly
when the resolved preference is `"light"`.  No storage write occurs. -/
def initTrace (e : Env) : List Eff :=
  [Eff.readStorage "theme"] ++
    (if initial e = "light" then [Eff.classMutation "light"] else [])

/-- Storage effects and class mutations performed by one activation of the
click handler (lines 10-11): one `classList.toggle("light")` and one
`setItem` on `"theme"`. -/
def handlerTrace (st : PState) : List Eff :=
  [Eff.classMutation "light",
   Eff.writeStorage "theme" (if (classToggle st.body "light").1 then "light" else "dark")]

/-! ### The spec's resolution rule, taken at its word -/

/-- The resolution rule as the spec words it: the stored value whenever one
is present (with no proviso about emptiness), else the OS fallback. -/
def specResolvedPref (e : Env) : String :=
  match getItem e.storage "theme" with
  | some v => v
  | none => if prefersLight e then "light" else "dark"

/-- The amended resolution rule: the stored value whenever one is present
and nonempty, else the OS fallback. -/
def amendedResolvedPref (e : Env) : String :=
  match getItem e.storage "theme" with
  | some v => if v = "" then (if prefersLight e then "light" else "dark") else v
  | none => if prefersLight e then "light" else "dark"

/-! ### Basic lemmas -/

/-- `initialize` never errors and its result is determined componentwise. -/
theorem initMain_eq (e : Env) (body0 : List String) :
    initMain e body0 = Except.ok ⟨applyInit e body0, e.storage, e.btnPresent⟩ := by
  rcases e with ⟨s, mm, pm, bp⟩
  cases bp <;> rfl

theorem mem_classAdd_self (cs : List String) (c : String) : c ∈ classAdd cs c := by
  by_cases h : c ∈ cs <;> simp [classAdd, h]

theorem classAdd_idem (cs : List String) (c : String) :
    classAdd (classAdd cs c) c = classAdd cs c := by
  by_cases h : c ∈ cs <;> simp [classAdd, h]

theorem getItem_setItem_same (s : Storage) (k v : String) :
    getItem (setItem s k v) k = some v := by
  simp [setItem, getItem]

theorem getItem_filter_ne (s : Storage) (k k' : String) (h : k' ≠ k) :
    getItem (s.filter (fun p => p.1 != k)) k' = getItem s k' := by
  induction s with
  | nil => rfl
  | cons p rest ih =>
    by_cases hp : p.1 = k
    · have hne : ¬ p.1 = k' := by
        intro hk
        exact h (hk ▸ hp)
      simp [getItem, hp, hne, ih, Ne.symm h]
    · simp only [List.filter_cons]
      simp [getItem, hp, ih]

theorem getItem_setItem_other (s : Storage) (k v k' : String) (h : k' ≠ k) :
    getItem (setItem s k v) k' = getItem s k' := by
  simp [setItem, getItem, Ne.symm h, getItem_filter_ne s k k' h]

theorem not_mem_filter_ne (cs : List String) (c : String) :
    c ∉ cs.filter (fun x => x ≠ c) := by
  intro h
  have := List.of_mem_filter h
  simp at this

/-- One activation flips the presence of the marker class. -/
theorem clickHandler_flips (st : PState) :
    ("light" ∈ (clickHandler st).body) ↔ ("light" ∉ st.body) := by
  by_cases h : "light" ∈ st.body
  · simp [clickHandler, classToggle, h, not_mem_filter_ne]
  · simp [clickHandler, classToggle, h]

/-- One activation writes the string matching the new marker state. -/
theorem clickHandler_writes (st : PState) :
    getItem (clickHandler st).storage "theme" =
      some (if "light" ∈ (clickHandler st).body then "light" else "dark") := by
  by_cases h : "light" ∈ st.body
  · simp [clickHandler, classToggle, h, getItem_setItem_same, not_mem_filter_ne]
  · simp [clickHandler, classToggle, h, getItem_setItem_same]

theorem clickHandler_bound (st : PState) :
    (clickHandler st).handlerBound = st.handlerBound := rfl

/-- Class mutations of the handler leave every other class token alone. -/
theorem clickHandler_frame_body (st : PState) (c : String) (hc : c ≠ "light") :
    (c ∈ (clickHandler st).body) ↔ (c ∈ st.body) := by
  by_cases h : "light" ∈ st.body <;>
    simp [clickHandler, classToggle, h, List.mem_filter, hc]

/-- The marker class is present after line 5 iff the resolved initial
preference is `"light"` (for a body that does not already carry it). -/
theorem mem_applyInit (e : Env) (body0 : List String) (h0 : "light" ∉ body0) :
    ("light" ∈ applyInit e body0) ↔ initial e = "light" := by
  unfold applyInit
  by_cases h : initial e = "light"
  · simp [h, mem_classAdd_self]
  · simp [h, h0]

theorem initial_eq_amended (e : Env) : initial e = amendedResolvedPref e := by
  unfold initial amendedResolvedPref jsOrString
  cases getItem e.storage "theme" <;> rfl

theorem initial_of_stored (e : Env) (v : String)
    (hv : getItem e.storage "theme" = some v) (hne : v ≠ "") : initial e = v := by
  unfold initial jsOrString
  rw [hv]
  simp [hne]

theorem applyInit_idem (e : Env) (body0 : List String) :
    applyInit e (applyInit e body0) = applyInit e body0 := by
  unfold applyInit
  by_cases h : initial e = "light"
  · simp [h, classAdd_idem]
  · simp [h]

/-! ### Claims -/

/-- C1 counterexample: with `""` stored under `"theme"` and a light-reporting
OS signal, the code adds the marker class although the preference the claim
says is resolved (the stored value, since one is present) is `""`, not
`"light"`.  JS `||` treats the present empty string as absent. -/
theorem C1_counterexample :
    specResolvedPref ⟨[("theme", "")], true, true, false⟩ ≠ "light" ∧
    initMain ⟨[("theme", "")], true, true, false⟩ [] =
      Except.ok ⟨["light"], [("theme", "")], false⟩ := by
  constructor
  · decide
  · rfl

/-- C1 (amended): `initMain` resolves the initial preference as the stored
value if present and nonempty, otherwise `"light"`/`"dark"` by the OS
signal; the marker class ends up on the root container exactly when the
resolved preference is `"light"`; in particular for every prior persisted
value v in `{"light", "dark"}` the marker class is applied iff v = `"light"`. -/
theorem C1_init_resolution (e : Env) (body0 : List String) (h0 : "light" ∉ body0)
    (st : PState) (hrun : initMain e body0 = Except.ok st) :
    initial e = amendedResolvedPref e ∧
    (("light" ∈ st.body) ↔ initial e = "light") ∧
    (∀ v, (v = "light" ∨ v = "dark") → getItem e.storage "theme" = some v →
      (("light" ∈ st.body) ↔ v = "light")) := by
  rw [initMain_eq] at hrun
  injection hrun with hrun
  subst hrun
  refine ⟨initial_eq_amended e, mem_applyInit e body0 h0, ?_⟩
  intro v hv hstored
  have hne : v ≠ "" := by
    rcases hv with rfl | rfl <;> decide
  rw [mem_applyInit e body0 h0, initial_of_stored e v hstored hne]

/-- Witness for C1 at a storage holding `"light"`. -/
theorem C1_init_resolution_witness :
    initial ⟨[("theme", "light")], false, false, true⟩ =
      amendedResolvedPref ⟨[("theme", "light")], false, false, true⟩ ∧
    (("light" ∈ (["light"] : List String)) ↔
      initial ⟨[("theme", "light")], false, false, true⟩ = "light") ∧
    (("light" ∈ (["light"] : List String)) ↔ "light" = "light") := by
  have h := C1_init_resolution ⟨[("theme", "light")], false, false, true⟩ []
    (by decide) ⟨["light"], [("theme", "light")], true⟩ (by rfl)
  exact ⟨h.1, h.2.1, h.2.2 "light" (Or.inl rfl) (by rfl)⟩

/-- C2: when nothing is stored under `"theme"`, the resulting state is Light
(marker present) iff the OS signal reports light, and an unavailable
`matchMedia` capability yields Dark (marker absent). -/
theorem C2_no_stored (e : Env) (body0 : List String) (h0 : "light" ∉ body0)
    (hn : getItem e.storage "theme" = none)
    (st : PState) (hrun : initMain e body0 = Except.ok st) :
    (("light" ∈ st.body) ↔ prefersLight e = true) ∧
    (e.matchMediaAvail = false → "light" ∉ st.body) := by
  rw [initMain_eq] at hrun
  injection hrun with hrun
  subst hrun
  have hmem := mem_applyInit e body0 h0
  have hinit : initial e = (if prefersLight e then "light" else "dark") := by
    unfold initial jsOrString
    rw [hn]
  constructor
  · rw [hmem, hinit]
    cases hp : prefersLight e <;> simp
  · intro hmm
    have hp : prefersLight e = false := by simp [prefersLight, hmm]
    rw [hmem, hinit, hp]
    simp

/-- Witness for C2 at an empty storage and an unavailable `matchMedia`. -/
theorem C2_no_stored_witness :
    (("light" ∈ ([] : List String)) ↔ prefersLight ⟨[], false, true, false⟩ = true) ∧
    "light" ∉ ([] : List String) := by
  have h := C2_no_stored ⟨[], false, true, false⟩ [] (by decide) (by rfl)
    ⟨[], [], false⟩ (by rfl)
  exact ⟨h.1, h.2 rfl⟩

/-- C3: each activation of the toggle handler flips the presence of the
marker class and stores `"light"` under key `"theme"` iff the marker class is
present after the flip, `"dark"` otherwise. -/
theorem C3_toggle_activation (st : PState) :
    (("light" ∈ (clickHandler st).body) ↔ ("light" ∉ st.body)) ∧
    getItem (clickHandler st).storage "theme" =
      some (if "light" ∈ (clickHandler st).body then "light" else "dark") :=
  ⟨clickHandler_flips st, clickHandler_writes st⟩

/-- C4: after any positive number of handler activations, the persisted
value under `"theme"` is `"light"` exactly when the marker class is present. -/
theorem C4_sync_invariant (st0 : PState) (n : Nat) (hn : 1 ≤ n) :
    getItem (clickHandler^[n] st0).storage "theme" =
      some (if "light" ∈ (clickHandler^[n] st0).body then "light" else "dark") := by
  obtain ⟨m, rfl⟩ : ∃ m, n = m + 1 := ⟨n - 1, (Nat.succ_pred_eq_of_pos hn).symm⟩
  rw [Function.iterate_succ_apply']
  exact clickHandler_writes (clickHandler^[m] st0)

/-- Witness for C4 after one activation from an empty body. -/
theorem C4_sync_invariant_witness :
    getItem (clickHandler^[1] (⟨[], [], true⟩ : PState)).storage "theme" =
      some (if "light" ∈ (clickHandler^[1] (⟨[], [], true⟩ : PState)).body
            then "light" else "dark") :=
  C4_sync_invariant ⟨[], [], true⟩ 1 (by decide)

/-- C5: from any state whose persisted value matches its marker class, two
consecutive activations restore both the marker-class presence and the
persisted value under `"theme"`. -/
theorem C5_toggle_roundtrip (st : PState)
    (hsync : getItem st.storage "theme" =
      some (if "light" ∈ st.body then "light" else "dark")) :
    (("light" ∈ (clickHandler (clickHandler st)).body) ↔ ("light" ∈ st.body)) ∧
    getItem (clickHandler (clickHandler st)).storage "theme" =
      getItem st.storage "theme" := by
  have hmem : ("light" ∈ (clickHandler (clickHandler st)).body) ↔
      ("light" ∈ st.body) := by
    rw [clickHandler_flips (clickHandler st)]
    simp [clickHandler_flips st]
  refine ⟨hmem, ?_⟩
  rw [clickHandler_writes (clickHandler st), hsync]
  exact congrArg some (if_congr hmem rfl rfl)

/-- Witness for C5 starting from the synchronized Light state. -/
theorem C5_toggle_roundtrip_witness :
    (("light" ∈ (clickHandler (clickHandler
        (⟨["light"], [("theme", "light")], true⟩ : PState))).body) ↔
      ("light" ∈ (["light"] : List String))) ∧
    getItem (clickHandler (clickHandler
        (⟨["light"], [("theme", "light")], true⟩ : PState))).storage "theme" =
      getItem ([("theme", "light")] : Storage) "theme" :=
  C5_toggle_roundtrip ⟨["light"], [("theme", "light")], true⟩ (by rfl)

/-- C6: re-running the initialization against an unchanged environment on
the body the first run produced yields the same marker-class state. -/
theorem C6_init_idempotent (e : Env) (body0 : List String) (st1 st2 : PState)
    (h1 : initMain e body0 = Except.ok st1)
    (h2 : initMain e st1.body = Except.ok st2) :
    st2.body = st1.body := by
  rw [initMain_eq] at h1 h2
  injection h1 with h1
  subst h1
  injection h2 with h2
  subst h2
  exact applyInit_idem e body0

/-- Witness for C6 with a stored `"light"` preference. -/
theorem C6_init_idempotent_witness :
    (⟨["light"], [("theme", "light")], false⟩ : PState).body =
      (⟨["light"], [("theme", "light")], false⟩ : PState).body :=
  C6_init_idempotent ⟨[("theme", "light")], false, false, false⟩ []
    ⟨["light"], [("theme", "light")], false⟩
    ⟨["light"], [("theme", "light")], false⟩ (by rfl) (by rfl)

/-- C7: with no `"theme-toggle"` element the IIFE still returns normally,
applies the correct initial marker-class state, and registers no handler. -/
theorem C7_missing_button (e : Env) (body0 : List String)
    (hb : e.btnPresent = false) :
    initMain e body0 = Except.ok ⟨applyInit e body0, e.storage, false⟩ := by
  rw [initMain_eq, hb]

/-- Witness for C7 on a button-less page with a light OS preference. -/
theorem C7_missing_button_witness :
    initMain ⟨[], true, true, false⟩ [] =
      Except.ok ⟨applyInit ⟨[], true, true, false⟩ [], [], false⟩ :=
  C7_missing_button ⟨[], true, true, false⟩ [] rfl

/-- C8: the initialization path performs exactly one storage read and no
storage write; each handler activation performs no read, exactly one write
and exactly one class mutation; every storage effect is on key `"theme"`;
the handler leaves every other storage key, every other class token, and
the handler registration untouched. -/
theorem C8_effect_frame (e : Env) (st : PState) :
    (initTrace e).countP Eff.isRead = 1 ∧
    (initTrace e).countP Eff.isWrite = 0 ∧
    (handlerTrace st).countP Eff.isRead = 0 ∧
    (handlerTrace st).countP Eff.isWrite = 1 ∧
    (handlerTrace st).countP Eff.isClassMutation = 1 ∧
    (∀ k, Eff.readStorage k ∈ initTrace e ++ handlerTrace st → k = "theme") ∧
    (∀ k v, Eff.writeStorage k v ∈ initTrace e ++ handlerTrace st → k = "theme") ∧
    (∀ k, k ≠ "theme" →
      getItem (clickHandler st).storage k = getItem st.storage k) ∧
    (∀ c, c ≠ "light" → ((c ∈ (clickHandler st).body) ↔ (c ∈ st.body))) ∧
    (clickHandler st).handlerBound = st.handlerBound := by
  refine ⟨?_, ?_, rfl, rfl, rfl, ?_, ?_, ?_, ?_, rfl⟩
  · by_cases h : initial e = "light" <;>
      simp [initTrace, h, List.countP_cons, Eff.isRead]
  · by_cases h : initial e = "light" <;>
      simp [initTrace, h, List.countP_cons, Eff.isWrite]
  · intro k hk
    by_cases h : initial e = "light" <;>
      simp [initTrace, handlerTrace, h] at hk <;> exact hk
  · intro k v hkv
    by_cases h : initial e = "light" <;>
      simp [initTrace, handlerTrace, h] at hkv <;> exact hkv.1
  · intro k hk
    exact getItem_setItem_other st.storage "theme" _ k hk
  · intro c hc
    exact clickHandler_frame_body st c hc

/-- Witness for C8 on a light environment, probing key `"other"` and class
token `"big"`. -/
theorem C8_effect_frame_witness :
    (initTrace ⟨[], true, true, true⟩).countP Eff.isRead = 1 ∧
    (initTrace ⟨[], true, true, true⟩).countP Eff.isWrite = 0 ∧
    (handlerTrace ⟨[], [], true⟩).countP Eff.isRead = 0 ∧
    (handlerTrace ⟨[], [], true⟩).countP Eff.isWrite = 1 ∧
    (handlerTrace ⟨[], [], true⟩).countP Eff.isClassMutation = 1 ∧
    "theme" = "theme" ∧
    "theme" = "theme" ∧
    getItem (clickHandler ⟨[], [], true⟩).storage "other" =
      getItem ([] : Storage) "other" ∧
    (("big" ∈ (clickHandler ⟨[], [], true⟩).body) ↔
      ("big" ∈ ([] : List String))) ∧
    (clickHandler ⟨[], [], true⟩).handlerBound = true := by
  have h := C8_effect_frame ⟨[], true, true, true⟩ ⟨[], [], true⟩
  exact ⟨h.1, h.2.1, h.2.2.1, h.2.2.2.1, h.2.2.2.2.1,
    h.2.2.2.2.2.1 "theme" (by decide),
    h.2.2.2.2.2.2.1 "theme" "light" (by decide),
    h.2.2.2.2.2.2.2.1 "other" (by decide),
    h.2.2.2.2.2.2.2.2.1 "big" (by decide),
    h.2.2.2.2.2.2.2.2.2⟩

/-- C9: at initialization a stored empty string falls back to the OS signal
(just as if nothing were stored), and any nonempty stored value other than
the exact string `"light"` (such as `"Light"` or `"dark"`) leaves the marker
class absent. -/
theorem C9_nonlight_values (e : Env) (body0 : List String) (h0 : "light" ∉ body0)
    (st : PState) (hrun : initMain e body0 = Except.ok st) :
    (getItem e.storage "theme" = some "" →
      initial e = (if prefersLight e then "light" else "dark") ∧
      (("light" ∈ st.body) ↔ prefersLight e = true)) ∧
    (∀ v, getItem e.storage "theme" = some v → v ≠ "" → v ≠ "light" →
      "light" ∉ st.body) := by
  rw [initMain_eq] at hrun
  injection hrun with hrun
  subst hrun
  constructor
  · intro hv
    have hinit : initial e = (if prefersLight e then "light" else "dark") := by
      unfold initial jsOrString
      rw [hv]
      rfl
    refine ⟨hinit, ?_⟩
    rw [mem_applyInit e body0 h0, hinit]
    cases hp : prefersLight e <;> simp
  · intro v hv hne hnl
    rw [mem_applyInit e body0 h0, initial_of_stored e v hv hne]
    exact hnl

/-- Witness for C9: a stored `""` with a dark OS fallback, and a stored
`"Light"` (wrong case). -/
theorem C9_nonlight_values_witness :
    (initial ⟨[("theme", "")], false, true, false⟩ =
      (if prefersLight ⟨[("theme", "")], false, true, false⟩
       then "light" else "dark") ∧
     (("light" ∈ ([] : List String)) ↔
       prefersLight ⟨[("theme", "")], false, true, false⟩ = true)) ∧
    "light" ∉ ([] : List String) := by
  have h1 := C9_nonlight_values ⟨[("theme", "")], false, true, false⟩ []
    (by decide) ⟨[], [("theme", "")], false⟩ (by rfl)
  have h2 := C9_nonlight_values ⟨[("theme", "Light")], true, true, false⟩ []
    (by decide) ⟨[], [("theme", "Light")], false⟩ (by rfl)
  exact ⟨h1.1 rfl, h2.2 "Light" rfl (by decide) (by decide)⟩

/-- C10: the whole program is deterministic in its environment — two runs
from componentwise-identical environments, initial bodies and click counts
end in identical states. -/
theorem C10_deterministic (e1 e2 : Env) (b1 b2 : List String) (n1 n2 : Nat)
    (hs : e1.storage = e2.storage)
    (hmm : e1.matchMediaAvail = e2.matchMediaAvail)
    (hpm : e1.prefersLightMatches = e2.prefersLightMatches)
    (hbtn : e1.btnPresent = e2.btnPresent)
    (hb : b1 = b2) (hn : n1 = n2) :
    run e1 b1 n1 = run e2 b2 n2 := by
  obtain ⟨s1, m1, p1, q1⟩ := e1
  obtain ⟨s2, m2, p2, q2⟩ := e2
  dsimp only at hs hmm hpm hbtn
  subst hs hmm hpm hbtn hb hn
  rfl

/-- Witness for C10 on a dark-stored environment with two clicks. -/
theorem C10_deterministic_witness :
    run ⟨[("theme", "dark")], true, false, true⟩ ["x"] 2 =
      run ⟨[("theme", "dark")], true, false, true⟩ ["x"] 2 :=
  C10_deterministic ⟨[("theme", "dark")], true, false, true⟩
    ⟨[("theme", "dark")], true, false, true⟩ ["x"] ["x"] 2 2
    rfl rfl rfl rfl rfl rfl

